import Mathlib

/-
Shallow embedding of the grant-to-funder-to-publication pipeline of
src/PGMT.py (Publications-Grants Matching Tool), covering
fetch_funders_for_grant, query_openalex, process_uploaded_file and the
batch loop of main.

Modelling conventions, each noted again at its definition:
- JSON leaf values are JVal (null, string, integer).  A leaf field of an
  object is Option JVal: none means the key is absent from the object,
  some JVal.jnull means the key is present and bound to null.  Python
  dict.get(k) returns None both for an absent key and for a null value;
  dict.get(k, default) returns the default only for an absent key;
  dict[k] raises KeyError only for an absent key.  The Option layer keeps
  exactly these distinctions.
- Arrays (results, grants, authorships, institutions) are plain Lists;
  an absent array key and an empty array coincide (both give [] through
  dict.get(k, [])).
- A raised-and-not-caught Python exception is Except.error (); the HTTP
  GET itself raising (requests.get stands outside the try block) is the
  constructor HttpResult.raises.  response.json() raising, or the parsed
  value not being an object with a usable results list, is the body
  Option being none.
- Exceptions raised inside the try blocks short-circuit the whole list
  being built; mapMo models that left-to-right short-circuit.
- Python set deduplication is modelled by dedupList, which keeps the
  first occurrence of each element; the set iteration order of Python is
  unspecified, and no theorem below depends on the order, only on
  membership and on each element occurring once.
-/

/-- A JSON leaf value: null, a string, or an integer. -/
inductive JVal where
  | jnull : JVal
  | jstr : String → JVal
  | jint : Int → JVal
deriving DecidableEq, Repr

/-- Python truthiness of a value obtained through dict.get(k): None (absent
key or null) and the empty string and zero are falsy, the rest truthy.
Embeds the test in line 22 of PGMT.py. -/
def truthy : Option JVal → Bool
  | none => false
  | some JVal.jnull => false
  | some (JVal.jstr s) => !(s == "")
  | some (JVal.jint n) => !(n == 0)

/-- One entry of the grants array of a work:
\x7baward_id, funder, funder_display_name\x7d.  Each field is none when the
key is absent; funder is read with bracket access in the source (line 23),
so an absent funder key raises KeyError there. -/
structure Grant where
  award_id : Option JVal
  funder : Option JVal
  funder_display_name : Option JVal
deriving DecidableEq, Repr

/-- The author object of an authorship. -/
structure Author where
  display_name : Option JVal
deriving DecidableEq, Repr

/-- One entry of the institutions array of an authorship. -/
structure Institution where
  display_name : Option JVal
deriving DecidableEq, Repr

/-- One entry of the authorships array of a work.  The author field is
read with auth.get("author", \x7b\x7d): none means the key is absent (the
default empty dict is used), some none means the key is bound to null
(the subsequent .get on None raises AttributeError), some (some a) means
a proper object. -/
structure Authorship where
  author : Option (Option Author)
  institutions : List Institution
deriving DecidableEq, Repr

/-- A work object of the results array, restricted to the keys the
pipeline reads. -/
structure Work where
  doi : Option JVal
  title : Option JVal
  publication_year : Option JVal
  authorships : List Authorship
  grants : List Grant
deriving DecidableEq, Repr

/-- The outcome of requests.get: either the call itself raises (network
failure; requests.get stands outside the try blocks of PGMT.py), or a
response arrives with a status code and a body.  The body is none when
response.json() raises or the parsed value has no usable shape, and
some works when data.get("results", []) yields a list of works. -/
inductive HttpResult where
  | raises : HttpResult
  | ok : Nat → Option (List Work) → HttpResult

/-- Left-to-right traversal of a list under Option, stopping at the first
failure: models a Python comprehension or loop whose body may raise, the
exception aborting the whole construction. -/
def mapMo {α β : Type} (f : α → Option β) : List α → Option (List β)
  | [] => some []
  | a :: as =>
    match f a with
    | none => none
    | some b =>
      match mapMo f as with
      | none => none
      | some bs => some (b :: bs)

/-- Insert into a Python set, modelled as a first-occurrence list: add at
the end when not yet present. -/
def pyInsert {α : Type} [DecidableEq α] (acc : List α) (x : α) : List α :=
  if x ∈ acc then acc else acc ++ [x]

/-- Deduplicate a list keeping first occurrences: the contents of a
Python set built by adding the elements in order. -/
def dedupList {α : Type} [DecidableEq α] (l : List α) : List α :=
  l.foldl pyInsert []

/-- The warning surfaced by st.error when the funders request has a
non-200 status (line 12 of PGMT.py). -/
def fetchFundersFailMsg (grant_id : String) : String :=
  s!"Failed to fetch funders for Grant ID {grant_id} from OpenAlex."

/-- The warning surfaced by st.error when the publications request has a
non-200 status (line 36 of PGMT.py). -/
def fetchPubsFailMsg (grant_id : String) (funder_name : String) : String :=
  s!"Failed to fetch publications for Grant ID {grant_id} and Funder {funder_name} from OpenAlex."

/-- The warning surfaced by the except branches (lines 27 and 54 of
PGMT.py); the interpolated exception text is abstracted away. -/
def processErrMsg : String := "Error processing OpenAlex response"

/-- The condition of line 22 of PGMT.py:
grant.get("award_id") == grant_id and grant.get("funder_display_name").
The left comparison is true exactly when award_id is the string grant_id
(None, null, and non-string values compare unequal to a Python str). -/
def matchesGrant (grant_id : String) (g : Grant) : Bool :=
  (g.award_id == some (JVal.jstr grant_id)) && truthy g.funder_display_name

/-- The pair built in line 23 of PGMT.py with bracket access:
(grant["funder_display_name"], grant["funder"]).  none models the
KeyError raised when the funder key is absent (the display name is
present whenever matchesGrant holds, since truthy values exist). -/
def grantPair (g : Grant) : Option (JVal × JVal) :=
  match g.funder_display_name, g.funder with
  | some d, some f => some (d, f)
  | _, _ => none

/-- The pairs one work contributes in lines 20-23 of PGMT.py: every grant
annotation passing the line-22 condition, turned into its pair;
none when building some pair raises KeyError. -/
def workFunderPairs (grant_id : String) (w : Work) : Option (List (JVal × JVal)) :=
  mapMo grantPair (w.grants.filter (matchesGrant grant_id))

/-- fetch_funders_for_grant of PGMT.py (lines 6-28).  The result is the
funder-pair list together with the warnings surfaced through st.error;
Except.error models an exception leaving the function (only the HTTP GET
itself can raise one, being outside the try block). -/
def fetch_funders_for_grant (grant_id : String) (r : HttpResult) :
    Except Unit (List (JVal × JVal) × List String) :=
  match r with
  | HttpResult.raises => Except.error ()
  | HttpResult.ok status body =>
    if status ≠ 200 then
      Except.ok ([], [fetchFundersFailMsg grant_id])
    else
      match body with
      | none => Except.ok ([], [processErrMsg])
      | some works =>
        match mapMo (workFunderPairs grant_id) works with
        | none => Except.ok ([], [processErrMsg])
        | some pls => Except.ok (dedupList pls.flatten, [])

/-- The Python value auth.get("author", \x7b\x7d).get("display_name", "Unknown")
of line 46 of PGMT.py: "Unknown" when the author key or the display_name
key is absent, the display_name value otherwise; none models the
AttributeError raised when the author key is bound to null. -/
def authorVal (a : Authorship) : Option JVal :=
  match a.author with
  | none => some (JVal.jstr "Unknown")
  | some none => none
  | some (some au) =>
    match au.display_name with
    | none => some (JVal.jstr "Unknown")
    | some v => some v

/-- The Python value inst.get("display_name", "Unknown") of line 49 of
PGMT.py. -/
def instVal (i : Institution) : JVal :=
  match i.display_name with
  | none => JVal.jstr "Unknown"
  | some v => v

/-- A JSON value as a Python str, none when it is not one: feeding a
non-str (None included) to str.join raises TypeError. -/
def asStr : JVal → Option String
  | JVal.jstr s => some s
  | _ => none

/-- Python sep.join(values): the concatenation when every value is a
str, none (TypeError) otherwise. -/
def pyJoin (sep : String) (l : List JVal) : Option String :=
  match mapMo asStr l with
  | none => none
  | some ss => some (String.intercalate sep ss)

/-- The institution values of one work, in generator order (authorships
outer, institutions inner), before set deduplication: line 49 of
PGMT.py. -/
def instVals (pub : Work) : List JVal :=
  (pub.authorships.flatMap (fun a => a.institutions)).map instVal

/-- The dict literal of lines 43-50 of PGMT.py, projecting one work into
a publication record; none when evaluating it raises (a null author
object, or a non-str author or institution name reaching str.join). -/
structure PubRecord where
  doi : JVal
  title : JVal
  authors : String
  funder_display_name : String
  publication_year : JVal
  institutions : String
deriving DecidableEq, Repr

/-- Projection of one work (lines 43-50 of PGMT.py): doi, title and
publication_year through dict.get with their sentinels, authors joined
in order, institutions set-deduplicated then joined, the funder display
name taken from the funder_name argument. -/
def projectPub (funder_name : String) (pub : Work) : Option PubRecord :=
  match mapMo authorVal pub.authorships with
  | none => none
  | some avals =>
    match pyJoin ", " avals with
    | none => none
    | some authors =>
      match pyJoin ", " (dedupList (instVals pub)) with
      | none => none
      | some institutions =>
        some {
          doi := pub.doi.getD (JVal.jstr "N/A"),
          title := pub.title.getD (JVal.jstr "Unknown Title"),
          authors := authors,
          funder_display_name := funder_name,
          publication_year := pub.publication_year.getD (JVal.jstr "Unknown"),
          institutions := institutions }

/-- query_openalex of PGMT.py (lines 30-55).  funder_id enters only the
request URL, which the embedding does not model; the argument is kept
for signature fidelity. -/
def query_openalex (grant_id : String) (funder_id : JVal) (funder_name : String)
    (r : HttpResult) : Except Unit (List PubRecord × List String) :=
  match r with
  | HttpResult.raises => Except.error ()
  | HttpResult.ok status body =>
    if status ≠ 200 then
      Except.ok ([], [fetchPubsFailMsg grant_id funder_name])
    else
      match body with
      | none => Except.ok ([], [processErrMsg])
      | some pubs =>
        match mapMo (projectPub funder_name) pubs with
        | none => Except.ok ([], [processErrMsg])
        | some recs => Except.ok (recs, [])

/-- Python str.split(",") on characters: splits at every comma, keeps
empty pieces, never drops a piece. -/
def pySplitAux : List Char → List Char → List String
  | [], acc => [String.mk acc.reverse]
  | c :: cs, acc =>
    if c = ',' then String.mk acc.reverse :: pySplitAux cs []
    else pySplitAux cs (c :: acc)

/-- Python x.split(","), as applied to every cell in line 66 of PGMT.py. -/
def pySplitComma (s : String) : List String :=
  pySplitAux s.data []

/-- Python str.strip(): drop whitespace from both ends. -/
def pyStrip (s : String) : String :=
  String.mk (((s.data.dropWhile Char.isWhitespace).reverse.dropWhile Char.isWhitespace).reverse)

/-- The set comprehension of line 67 of PGMT.py over the already split
GrantID column: strip every token of every cell, deduplicate. -/
def uniqueGrantIds (df : List (List String)) : List String :=
  dedupList ((df.flatten).map pyStrip)

/-- The uploaded spreadsheet as the pipeline reads it: whether a GrantID
column exists, and that column with every cell already converted to str
(astype(str) in line 66 of PGMT.py). -/
structure Sheet where
  hasGrantID : Bool
  cells : List String
deriving DecidableEq, Repr

/-- process_uploaded_file of PGMT.py (lines 57-74).  The argument is the
outcome of pd.read_excel, which stands outside any try block: a reading
failure (Except.error) propagates.  The ok result is None (rejection
with a blocking error) or the dataframe whose GrantID column holds the
split, unstripped token lists. -/
def process_uploaded_file (file : Except Unit Sheet) :
    Except Unit (Option (List (List String))) :=
  match file with
  | Except.error e => Except.error e
  | Except.ok sheet =>
    if sheet.hasGrantID then
      let df := sheet.cells.map pySplitComma
      if 100 < (uniqueGrantIds df).length then Except.ok none
      else Except.ok (some df)
    else Except.ok none

/-- The arguments of the fetch_funders_for_grant calls made by the batch
loop of main (lines 127-129 of PGMT.py): one call per token of every
cell of the processed dataframe, stripped, in row-then-token order.  No
deduplication happens here. -/
def resolverCallSequence (df : List (List String)) : List String :=
  (df.flatten).map pyStrip

/-- The (grant id, funder pair) arguments of the query_openalex calls
made by the batch loop (lines 130-131 of PGMT.py); resolve abstracts
fetch_funders_for_grant composed with the HTTP layer. -/
def fetcherCallSequence (resolve : String → List (JVal × JVal))
    (df : List (List String)) : List (String × (JVal × JVal)) :=
  (df.flatten).flatMap (fun g => (resolve (pyStrip g)).map (fun f => (pyStrip g, f)))

/-- The resolver calls the whole batch path makes for an uploaded file:
none when process_uploaded_file rejects the upload or raises. -/
def batchResolverCalls (file : Except Unit Sheet) : List String :=
  match process_uploaded_file file with
  | Except.ok (some df) => resolverCallSequence df
  | _ => []

/-- Sample grant annotation: award G1 funded by Funder A. -/
def sampleGrantG1 : Grant :=
  Grant.mk (some (JVal.jstr "G1")) (some (JVal.jstr "https://openalex.org/F1"))
    (some (JVal.jstr "Funder A"))

/-- Sample response for the resolver: two works carrying the identical
matching grant annotation. -/
def sampleFunderWorks : List Work :=
  [Work.mk none none none [] [sampleGrantG1],
   Work.mk none none none [] [sampleGrantG1]]

/-- Sample works for the sentinel claims: one with every leaf key
absent, one with every leaf key present. -/
def workAllAbsent : Work := Work.mk none none none [] []

/-- A work whose doi, title and publication_year keys are present. -/
def workAllPresent : Work :=
  Work.mk (some (JVal.jstr "https://doi.org/10.1000/x"))
    (some (JVal.jstr "A Title")) (some (JVal.jint 2020)) [] []

/-- Sample resolver oracle for the batch-loop witnesses. -/
def sampleResolve : String → List (JVal × JVal) :=
  fun g => if g = "G1" then [(JVal.jstr "Funder A", JVal.jstr "https://openalex.org/F1")] else []

/-- A work with two authors, both affiliated with Aalborg University. -/
def workTwoAalborg : Work :=
  Work.mk none none none
    [Authorship.mk (some (some (Author.mk (some (JVal.jstr "Alice")))))
      [Institution.mk (some (JVal.jstr "Aalborg University"))],
     Authorship.mk (some (some (Author.mk (some (JVal.jstr "Bob")))))
      [Institution.mk (some (JVal.jstr "Aalborg University"))]]
    []

/-- A work whose doi, title and publication_year keys are present but
bound to null, with no authorships. -/
def workNullLeaves : Work :=
  Work.mk (some JVal.jnull) (some JVal.jnull) (some JVal.jnull) [] []

/-- A work with one authorship whose author object carries a null
display_name. -/
def workNullAuthorName : Work :=
  Work.mk (some JVal.jnull) (some (JVal.jstr "A Title")) (some (JVal.jint 2020))
    [Authorship.mk (some (some (Author.mk (some JVal.jnull)))) []] []

/-- Membership in a pyInsert fold: exactly the accumulator and the list. -/
theorem mem_foldl_pyInsert {α : Type} [DecidableEq α] (l : List α) :
    ∀ (acc : List α) (x : α), x ∈ l.foldl pyInsert acc ↔ x ∈ acc ∨ x ∈ l := by
  induction l with
  | nil => intro acc x; simp
  | cons y ys ih =>
    intro acc x
    simp only [List.foldl_cons, ih, pyInsert]
    by_cases hy : y ∈ acc
    · simp only [if_pos hy, List.mem_cons]
      constructor
      · tauto
      · rintro (h | h | h) <;> first | tauto | exact Or.inl (h ▸ hy)
    · simp only [if_neg hy, List.mem_append, List.mem_singleton, List.mem_cons]
      tauto

/-- Membership in the deduplicated list is membership in the original. -/
theorem mem_dedupList {α : Type} [DecidableEq α] (l : List α) (x : α) :
    x ∈ dedupList l ↔ x ∈ l := by
  unfold dedupList
  rw [mem_foldl_pyInsert]
  simp

/-- A pyInsert fold keeps the accumulator free of duplicates. -/
theorem nodup_foldl_pyInsert {α : Type} [DecidableEq α] (l : List α) :
    ∀ acc : List α, acc.Nodup → (l.foldl pyInsert acc).Nodup := by
  induction l with
  | nil => intro acc h; simpa using h
  | cons y ys ih =>
    intro acc h
    simp only [List.foldl_cons]
    apply ih
    unfold pyInsert
    by_cases hy : y ∈ acc
    · simpa [if_pos hy] using h
    · simp [if_neg hy, List.nodup_append, h, hy]

/-- Deduplication yields a list without duplicates. -/
theorem nodup_dedupList {α : Type} [DecidableEq α] (l : List α) :
    (dedupList l).Nodup :=
  nodup_foldl_pyInsert l [] List.nodup_nil

/-- A successful mapMo pairs inputs and outputs elementwise. -/
theorem mapMo_forall2 {α β : Type} (f : α → Option β) :
    ∀ (l : List α) (r : List β), mapMo f l = some r →
      List.Forall₂ (fun a b => f a = some b) l r := by
  intro l
  induction l with
  | nil =>
    intro r h
    simp only [mapMo] at h
    cases h
    exact List.Forall₂.nil
  | cons a as ih =>
    intro r h
    simp only [mapMo] at h
    cases ha : f a with
    | none => rw [ha] at h; cases h
    | some b =>
      rw [ha] at h
      cases has : mapMo f as with
      | none => rw [has] at h; cases h
      | some bs =>
        rw [has] at h
        cases h
        exact List.Forall₂.cons ha (ih bs has)

/-- The outputs of a successful mapMo: exactly the images of the inputs. -/
theorem mapMo_mem {α β : Type} (f : α → Option β) :
    ∀ (l : List α) (r : List β), mapMo f l = some r →
      ∀ b : β, b ∈ r ↔ ∃ a ∈ l, f a = some b := by
  intro l
  induction l with
  | nil =>
    intro r h b
    simp only [mapMo] at h
    cases h
    simp
  | cons a as ih =>
    intro r h b
    simp only [mapMo] at h
    cases ha : f a with
    | none => rw [ha] at h; cases h
    | some b0 =>
      rw [ha] at h
      cases has : mapMo f as with
      | none => rw [has] at h; cases h
      | some bs =>
        rw [has] at h
        cases h
        simp only [List.mem_cons, ih bs has b]
        constructor
        · rintro (rfl | ⟨x, hx, hfx⟩)
          · exact ⟨a, Or.inl rfl, ha⟩
          · exact ⟨x, Or.inr hx, hfx⟩
        · rintro ⟨x, hx | hx, hfx⟩
          · subst hx; rw [ha] at hfx
            exact Or.inl (Option.some.inj hfx).symm
          · exact Or.inr ⟨x, hx, hfx⟩

/-- mapMo succeeds when every element maps to a value. -/
theorem mapMo_isSome {α β : Type} (f : α → Option β) :
    ∀ l : List α, (∀ a ∈ l, (f a).isSome) → ∃ r, mapMo f l = some r := by
  intro l
  induction l with
  | nil => exact fun _ => ⟨[], rfl⟩
  | cons a as ih =>
    intro h
    rcases Option.isSome_iff_exists.mp (h a (List.mem_cons_self a as)) with ⟨b, hb⟩
    rcases ih (fun x hx => h x (List.mem_cons_of_mem a hx)) with ⟨bs, hbs⟩
    exact ⟨b :: bs, by simp [mapMo, hb, hbs]⟩

/-- The fields of a record produced by a successful projection. -/
theorem projectPub_spec (funder_name : String) (pub : Work) (rec : PubRecord)
    (h : projectPub funder_name pub = some rec) :
    rec.doi = pub.doi.getD (JVal.jstr "N/A") ∧
    rec.title = pub.title.getD (JVal.jstr "Unknown Title") ∧
    rec.publication_year = pub.publication_year.getD (JVal.jstr "Unknown") ∧
    rec.funder_display_name = funder_name ∧
    (∃ avals, mapMo authorVal pub.authorships = some avals ∧
      pyJoin ", " avals = some rec.authors) ∧
    pyJoin ", " (dedupList (instVals pub)) = some rec.institutions := by
  unfold projectPub at h
  split at h
  · cases h
  · rename_i avals h1
    split at h
    · cases h
    · rename_i authors h2
      split at h
      · cases h
      · rename_i institutions h3
        cases h
        exact ⟨rfl, rfl, rfl, rfl, ⟨avals, h1, h2⟩, h3⟩

/-- A 200 response whose call surfaced no warning projected every work. -/
theorem query_ok_spec (grant_id : String) (funder_id : JVal) (funder_name : String)
    (pubs : List Work) (recs : List PubRecord)
    (h : query_openalex grant_id funder_id funder_name (HttpResult.ok 200 (some pubs)) =
      Except.ok (recs, [])) :
    mapMo (projectPub funder_name) pubs = some recs := by
  have hne : ¬ ((200 : Nat) ≠ 200) := by simp
  simp only [query_openalex, if_neg hne] at h
  split at h
  · simp [processErrMsg] at h
  · rename_i rs hm
    simp only [Except.ok.injEq, Prod.mk.injEq] at h
    exact h.1 ▸ hm

/-- Claim C1: for every Publication Record produced by query_openalex, the
funder_display_name field equals the funder_name argument of the call,
whatever the response contained. -/
theorem funder_field_eq_argument (grant_id : String) (funder_id : JVal)
    (funder_name : String) (r : HttpResult) (recs : List PubRecord) (ws : List String)
    (h : query_openalex grant_id funder_id funder_name r = Except.ok (recs, ws)) :
    ∀ rec ∈ recs, rec.funder_display_name = funder_name := by
  intro rec hrec
  cases r with
  | raises => cases h
  | ok status body =>
    simp only [query_openalex] at h
    split at h
    · simp only [Except.ok.injEq, Prod.mk.injEq] at h
      rw [← h.1] at hrec
      cases hrec
    · split at h
      · simp only [Except.ok.injEq, Prod.mk.injEq] at h
        rw [← h.1] at hrec
        cases hrec
      · rename_i pubs
        split at h
        · simp only [Except.ok.injEq, Prod.mk.injEq] at h
          rw [← h.1] at hrec
          cases hrec
        · rename_i rs hm
          simp only [Except.ok.injEq, Prod.mk.injEq] at h
          rw [← h.1] at hrec
          rcases (mapMo_mem _ _ _ hm rec).mp hrec with ⟨pub, _, hp⟩
          exact (projectPub_spec funder_name pub rec hp).2.2.2.1

/-- Witness for C1 at a concrete response with one work. -/
theorem funder_field_eq_argument_witness :
    (PubRecord.mk (JVal.jstr "N/A") (JVal.jstr "Unknown Title") "" "Funder A"
      (JVal.jstr "Unknown") "").funder_display_name = "Funder A" :=
  funder_field_eq_argument "G1" (JVal.jstr "https://openalex.org/F1") "Funder A"
    (HttpResult.ok 200 (some [Work.mk none none none [] []]))
    [PubRecord.mk (JVal.jstr "N/A") (JVal.jstr "Unknown Title") "" "Funder A"
      (JVal.jstr "Unknown") ""] [] (by rfl) _ (by simp)

/-- Claim C2: over a well-formed 200 response (every grant annotation passing
the award-id and display-name test carries a funder key, as the response
schema prescribes), the resolver emits a (name, funder id) pair exactly
when some work carries a matching annotation with that non-empty display
name and that funder id, and the deduplicated output holds each pair
once. -/
theorem resolver_pairs_iff (grant_id : String) (works : List Work)
    (hfunder : ∀ w ∈ works, ∀ g ∈ w.grants,
      matchesGrant grant_id g = true → (g.funder).isSome) :
    ∃ pairs,
      fetch_funders_for_grant grant_id (HttpResult.ok 200 (some works)) =
        Except.ok (pairs, []) ∧
      pairs.Nodup ∧
      (∀ name fid, (JVal.jstr name, fid) ∈ pairs ↔
        ∃ w ∈ works, ∃ g ∈ w.grants,
          g.award_id = some (JVal.jstr grant_id) ∧
          g.funder_display_name = some (JVal.jstr name) ∧ ¬ name = "" ∧
          g.funder = some fid) := by
  have hne : ¬ ((200 : Nat) ≠ 200) := by simp
  have hw : ∀ w ∈ works, (workFunderPairs grant_id w).isSome := by
    intro w hwm
    have hex : ∃ r, mapMo grantPair (w.grants.filter (matchesGrant grant_id)) = some r := by
      apply mapMo_isSome
      intro g hg
      rcases List.mem_filter.mp hg with ⟨hgm, hmatch⟩
      have hm2 := hmatch
      simp only [matchesGrant, Bool.and_eq_true, beq_iff_eq] at hm2
      rcases hm2 with ⟨haw, htr⟩
      cases hd : g.funder_display_name with
      | none => rw [hd] at htr; simp [truthy] at htr
      | some d =>
        rcases Option.isSome_iff_exists.mp (hfunder w hwm g hgm hmatch) with ⟨f, hf⟩
        simp [grantPair, hd, hf]
    rcases hex with ⟨r, hr⟩
    unfold workFunderPairs
    simp [hr]
  rcases mapMo_isSome (workFunderPairs grant_id) works hw with ⟨pls, hpls⟩
  refine ⟨dedupList pls.flatten, ?_, nodup_dedupList _, ?_⟩
  · simp only [fetch_funders_for_grant, if_neg hne, hpls]
  · intro name fid
    rw [mem_dedupList, List.mem_flatten]
    constructor
    · rintro ⟨wp, hwp, hpair⟩
      rcases (mapMo_mem _ _ _ hpls wp).mp hwp with ⟨w, hwm, hwfp⟩
      unfold workFunderPairs at hwfp
      rcases (mapMo_mem _ _ _ hwfp _).mp hpair with ⟨g, hgf, hgp⟩
      rcases List.mem_filter.mp hgf with ⟨hgm, hmatch⟩
      simp only [matchesGrant, Bool.and_eq_true, beq_iff_eq] at hmatch
      rcases hmatch with ⟨haw, htr⟩
      cases hd : g.funder_display_name with
      | none => rw [grantPair, hd] at hgp; cases hgp
      | some d =>
        cases hf : g.funder with
        | none => rw [grantPair, hd, hf] at hgp; cases hgp
        | some f =>
          rw [grantPair, hd, hf] at hgp
          have hdf := Option.some.inj hgp
          have hd2 : d = JVal.jstr name := congrArg Prod.fst hdf
          have hf2 : f = fid := congrArg Prod.snd hdf
          subst hd2
          subst hf2
          have hname : ¬ name = "" := by
            rw [hd] at htr
            simpa [truthy] using htr
          exact ⟨w, hwm, g, hgm, haw, hd, hname, hf⟩
    · rintro ⟨w, hwm, g, hgm, haw, hdisp, hname, hf⟩
      have hmatch : matchesGrant grant_id g = true := by
        simp [matchesGrant, haw, hdisp, truthy, hname]
      have hgf : g ∈ w.grants.filter (matchesGrant grant_id) :=
        List.mem_filter.mpr ⟨hgm, hmatch⟩
      have hgp : grantPair g = some (JVal.jstr name, fid) := by
        simp [grantPair, hdisp, hf]
      rcases Option.isSome_iff_exists.mp (hw w hwm) with ⟨wp, hwfp⟩
      have hwfp2 := hwfp
      unfold workFunderPairs at hwfp2
      refine ⟨wp, ?_, ?_⟩
      · exact (mapMo_mem _ _ _ hpls wp).mpr ⟨w, hwm, hwfp⟩
      · exact (mapMo_mem _ _ _ hwfp2 _).mpr ⟨g, hgf, hgp⟩

/-- Witness for C2: two works listing the identical pair, the pair
emitted exactly once. -/
theorem resolver_pairs_iff_witness :
    (∃ pairs,
      fetch_funders_for_grant "G1" (HttpResult.ok 200 (some sampleFunderWorks)) =
        Except.ok (pairs, []) ∧
      pairs.Nodup ∧
      (∀ name fid, (JVal.jstr name, fid) ∈ pairs ↔
        ∃ w ∈ sampleFunderWorks, ∃ g ∈ w.grants,
          g.award_id = some (JVal.jstr "G1") ∧
          g.funder_display_name = some (JVal.jstr name) ∧ ¬ name = "" ∧
          g.funder = some fid)) ∧
    fetch_funders_for_grant "G1" (HttpResult.ok 200 (some sampleFunderWorks)) =
      Except.ok ([(JVal.jstr "Funder A", JVal.jstr "https://openalex.org/F1")], []) :=
  ⟨resolver_pairs_iff "G1" sampleFunderWorks (by decide), by rfl⟩

/-- Claim C3: in a projected batch, a work with an absent doi, title or
publication_year key gets the sentinel in its record, and a present key
passes its value through as-is. -/
theorem missing_leaf_sentinels (grant_id : String) (funder_id : JVal)
    (funder_name : String) (pubs : List Work) (recs : List PubRecord)
    (h : query_openalex grant_id funder_id funder_name
      (HttpResult.ok 200 (some pubs)) = Except.ok (recs, [])) :
    List.Forall₂ (fun pub rec =>
      (pub.doi = none → rec.doi = JVal.jstr "N/A") ∧
      (∀ v, pub.doi = some v → rec.doi = v) ∧
      (pub.title = none → rec.title = JVal.jstr "Unknown Title") ∧
      (∀ v, pub.title = some v → rec.title = v) ∧
      (pub.publication_year = none → rec.publication_year = JVal.jstr "Unknown") ∧
      (∀ v, pub.publication_year = some v → rec.publication_year = v)) pubs recs := by
  have hm := query_ok_spec _ _ _ _ _ h
  have hf := mapMo_forall2 _ _ _ hm
  refine List.Forall₂.imp ?_ hf
  intro pub rec hp
  obtain ⟨hdoi, htitle, hyear, -, -, -⟩ := projectPub_spec _ _ _ hp
  refine ⟨fun h0 => ?_, fun v hv => ?_, fun h0 => ?_, fun v hv => ?_,
    fun h0 => ?_, fun v hv => ?_⟩
  · rw [hdoi, h0]; rfl
  · rw [hdoi, hv]; rfl
  · rw [htitle, h0]; rfl
  · rw [htitle, hv]; rfl
  · rw [hyear, h0]; rfl
  · rw [hyear, hv]; rfl

/-- Witness for C3 at a response holding one all-absent and one
all-present work. -/
theorem missing_leaf_sentinels_witness :
    List.Forall₂ (fun pub rec =>
      (pub.doi = none → rec.doi = JVal.jstr "N/A") ∧
      (∀ v, pub.doi = some v → rec.doi = v) ∧
      (pub.title = none → rec.title = JVal.jstr "Unknown Title") ∧
      (∀ v, pub.title = some v → rec.title = v) ∧
      (pub.publication_year = none → rec.publication_year = JVal.jstr "Unknown") ∧
      (∀ v, pub.publication_year = some v → rec.publication_year = v))
      [workAllAbsent, workAllPresent]
      [PubRecord.mk (JVal.jstr "N/A") (JVal.jstr "Unknown Title") "" "Funder A"
        (JVal.jstr "Unknown") "",
       PubRecord.mk (JVal.jstr "https://doi.org/10.1000/x") (JVal.jstr "A Title")
        "" "Funder A" (JVal.jint 2020) ""] :=
  missing_leaf_sentinels "G1" (JVal.jstr "https://openalex.org/F1") "Funder A"
    [workAllAbsent, workAllPresent] _ (by rfl)

/-- Claim C4: any non-2xx status yields the empty collection plus the surfaced
warning from both endpoints, and no exception leaves the call. -/
theorem non2xx_empty_and_warning (grant_id : String) (funder_id : JVal)
    (funder_name : String) (status : Nat) (body : Option (List Work))
    (h : status < 200 ∨ 299 < status) :
    fetch_funders_for_grant grant_id (HttpResult.ok status body) =
      Except.ok ([], [fetchFundersFailMsg grant_id]) ∧
    query_openalex grant_id funder_id funder_name (HttpResult.ok status body) =
      Except.ok ([], [fetchPubsFailMsg grant_id funder_name]) := by
  have hne : status ≠ 200 := by omega
  constructor
  · simp only [fetch_funders_for_grant, if_pos hne]
  · simp only [query_openalex, if_pos hne]

/-- Witness for C4 at a 404 response. -/
theorem non2xx_empty_and_warning_witness :
    ((404 : Nat) < 200 ∨ (299 : Nat) < 404) ∧
    fetch_funders_for_grant "G1" (HttpResult.ok 404 none) =
      Except.ok ([], [fetchFundersFailMsg "G1"]) ∧
    query_openalex "G1" (JVal.jstr "https://openalex.org/F1") "Funder A"
      (HttpResult.ok 404 none) =
      Except.ok ([], [fetchPubsFailMsg "G1" "Funder A"]) :=
  ⟨by decide,
   (non2xx_empty_and_warning "G1" (JVal.jstr "https://openalex.org/F1") "Funder A"
     404 none (by decide)).1,
   (non2xx_empty_and_warning "G1" (JVal.jstr "https://openalex.org/F1") "Funder A"
     404 none (by decide)).2⟩

/-- Counterexample for C5: when the HTTP GET itself raises (it stands
outside the try blocks), or reading the uploaded spreadsheet raises, the
exception leaves the pipeline function uncaught. -/
theorem transport_exception_propagates :
    fetch_funders_for_grant "G1" HttpResult.raises = Except.error () ∧
    query_openalex "G1" (JVal.jstr "https://openalex.org/F1") "Funder A"
      HttpResult.raises = Except.error () ∧
    process_uploaded_file (Except.error ()) = Except.error () :=
  ⟨rfl, rfl, rfl⟩

/-- Claim C5, amended: once the HTTP GET returns a response and the spreadsheet
is readable, every pipeline function returns normally, whatever the
status, body or sheet contents. -/
theorem responses_never_raise (grant_id : String) (funder_id : JVal)
    (funder_name : String) (status : Nat) (body : Option (List Work))
    (sheet : Sheet) :
    (∃ out, fetch_funders_for_grant grant_id (HttpResult.ok status body) =
      Except.ok out) ∧
    (∃ out, query_openalex grant_id funder_id funder_name
      (HttpResult.ok status body) = Except.ok out) ∧
    (∃ out, process_uploaded_file (Except.ok sheet) = Except.ok out) := by
  refine ⟨?_, ?_, ?_⟩
  · by_cases hs : status ≠ 200
    · exact ⟨([], [fetchFundersFailMsg grant_id]),
        by simp only [fetch_funders_for_grant, if_pos hs]⟩
    · cases body with
      | none => exact ⟨([], [processErrMsg]),
          by simp only [fetch_funders_for_grant, if_neg hs]⟩
      | some works =>
        cases hm : mapMo (workFunderPairs grant_id) works with
        | none => exact ⟨([], [processErrMsg]),
            by simp only [fetch_funders_for_grant, if_neg hs, hm]⟩
        | some pls => exact ⟨(dedupList pls.flatten, []),
            by simp only [fetch_funders_for_grant, if_neg hs, hm]⟩
  · by_cases hs : status ≠ 200
    · exact ⟨([], [fetchPubsFailMsg grant_id funder_name]),
        by simp only [query_openalex, if_pos hs]⟩
    · cases body with
      | none => exact ⟨([], [processErrMsg]),
          by simp only [query_openalex, if_neg hs]⟩
      | some pubs =>
        cases hm : mapMo (projectPub funder_name) pubs with
        | none => exact ⟨([], [processErrMsg]),
            by simp only [query_openalex, if_neg hs, hm]⟩
        | some recs => exact ⟨(recs, []),
            by simp only [query_openalex, if_neg hs, hm]⟩
  · by_cases hg : sheet.hasGrantID
    · by_cases hcap : 100 < (uniqueGrantIds (sheet.cells.map pySplitComma)).length
      · exact ⟨none, by simp only [process_uploaded_file, hg, if_true, if_pos hcap]⟩
      · exact ⟨some (sheet.cells.map pySplitComma),
          by simp only [process_uploaded_file, hg, if_true, if_neg hcap]⟩
    · exact ⟨none, by simp [process_uploaded_file, hg]⟩

/-- Witness for C5 amended at a concrete response and sheet. -/
theorem responses_never_raise_witness :
    (∃ out, fetch_funders_for_grant "G1" (HttpResult.ok 200 (some [])) =
      Except.ok out) ∧
    (∃ out, query_openalex "G1" (JVal.jstr "https://openalex.org/F1") "Funder A"
      (HttpResult.ok 200 (some [])) = Except.ok out) ∧
    (∃ out, process_uploaded_file (Except.ok (Sheet.mk true ["G1"])) =
      Except.ok out) :=
  responses_never_raise "G1" (JVal.jstr "https://openalex.org/F1") "Funder A"
    200 (some []) (Sheet.mk true ["G1"])

/-- Counterexample for C6: a cell holding the token G1 twice makes the
batch loop resolve G1 twice; the deduplicated set is used only for the
cap check. -/
theorem duplicate_grant_resolved_twice :
    process_uploaded_file (Except.ok (Sheet.mk true ["G1,G1"])) =
      Except.ok (some [["G1", "G1"]]) ∧
    (resolverCallSequence [["G1", "G1"]]).count "G1" = 2 := by
  constructor
  · rfl
  · decide

/-- Claim C6, amended: the batch loop resolves once per token occurrence of the
upload (comma-split, stripped, duplicates kept), and fetches once per
(token occurrence, resolved funder) pair. -/
theorem resolver_per_token_occurrence (sheet : Sheet) (df : List (List String))
    (resolve : String → List (JVal × JVal))
    (h : process_uploaded_file (Except.ok sheet) = Except.ok (some df)) :
    resolverCallSequence df = (sheet.cells.flatMap pySplitComma).map pyStrip ∧
    (fetcherCallSequence resolve df).length =
      ((resolverCallSequence df).map (fun g => (resolve g).length)).sum := by
  constructor
  · have hdf : df = sheet.cells.map pySplitComma := by
      simp only [process_uploaded_file] at h
      by_cases hg : sheet.hasGrantID
      · rw [if_pos hg] at h
        by_cases hcap : 100 < (uniqueGrantIds (sheet.cells.map pySplitComma)).length
        · rw [if_pos hcap] at h
          simp at h
        · rw [if_neg hcap] at h
          simp only [Except.ok.injEq, Option.some.injEq] at h
          exact h.symm
      · rw [if_neg hg] at h
        simp at h
    rw [hdf]
    unfold resolverCallSequence
    rw [List.flatMap_def]
  · unfold fetcherCallSequence resolverCallSequence
    simp [List.length_flatMap, List.map_map, Function.comp_def, List.length_map]

/-- Witness for C6 amended at a two-token upload. -/
theorem resolver_per_token_occurrence_witness :
    (resolverCallSequence [["G1", "G2"]] =
      (["G1,G2"].flatMap pySplitComma).map pyStrip ∧
    (fetcherCallSequence sampleResolve [["G1", "G2"]]).length =
      ((resolverCallSequence [["G1", "G2"]]).map
        (fun g => (sampleResolve g).length)).sum) :=
  resolver_per_token_occurrence (Sheet.mk true ["G1,G2"]) [["G1", "G2"]]
    sampleResolve (by rfl)

/-- Claim C7: an upload whose stripped token set holds over 100 distinct grant
identifiers is rejected before any call: process_uploaded_file returns
None and the batch path issues no resolver call. -/
theorem over_cap_rejected (sheet : Sheet)
    (h : 100 < (uniqueGrantIds (sheet.cells.map pySplitComma)).length) :
    process_uploaded_file (Except.ok sheet) = Except.ok none ∧
    batchResolverCalls (Except.ok sheet) = [] := by
  have hp : process_uploaded_file (Except.ok sheet) = Except.ok none := by
    simp only [process_uploaded_file]
    by_cases hg : sheet.hasGrantID
    · rw [if_pos hg, if_pos h]
    · rw [if_neg hg]
  refine ⟨hp, ?_⟩
  unfold batchResolverCalls
  rw [hp]

set_option maxRecDepth 4000 in
/-- Witness for C7 at an upload of 101 distinct identifiers. -/
theorem over_cap_rejected_witness :
    process_uploaded_file (Except.ok (Sheet.mk true ((List.range 101).map toString))) =
      Except.ok none ∧
    batchResolverCalls (Except.ok (Sheet.mk true ((List.range 101).map toString))) = [] :=
  over_cap_rejected (Sheet.mk true ((List.range 101).map toString)) (by decide)

/-- Claim C8: the extracted identifier set is exactly the comma-split,
stripped tokens of every cell, without duplicates; the cells
"G1, G2,G1" and "G3" yield exactly G1, G2, G3. -/
theorem unique_ids_flatten_dedup (cells : List String) (x : String) :
    (x ∈ uniqueGrantIds (cells.map pySplitComma) ↔
      ∃ c ∈ cells, ∃ t ∈ pySplitComma c, pyStrip t = x) ∧
    (uniqueGrantIds (cells.map pySplitComma)).Nodup ∧
    uniqueGrantIds (["G1, G2,G1", "G3"].map pySplitComma) = ["G1", "G2", "G3"] := by
  refine ⟨?_, nodup_dedupList _, by decide⟩
  unfold uniqueGrantIds
  rw [mem_dedupList]
  simp only [List.mem_map, List.mem_flatten]
  constructor
  · rintro ⟨t, ⟨l, ⟨c, hc, rfl⟩, htl⟩, hx⟩
    exact ⟨c, hc, t, htl, hx⟩
  · rintro ⟨c, hc, t, ht, hx⟩
    exact ⟨t, ⟨pySplitComma c, ⟨c, hc, rfl⟩, ht⟩, hx⟩

/-- Claim C9: in every produced record the institutions string joins a
duplicate-free list holding exactly the institution names occurring
across the authorships of the work, while the authors string joins one
name per authorship in order, duplicates kept. -/
theorem institutions_dedup_authors_in_order (grant_id : String) (funder_id : JVal)
    (funder_name : String) (pubs : List Work) (recs : List PubRecord)
    (h : query_openalex grant_id funder_id funder_name
      (HttpResult.ok 200 (some pubs)) = Except.ok (recs, [])) :
    List.Forall₂ (fun pub rec =>
      (∃ l : List JVal, l.Nodup ∧ (∀ v, v ∈ l ↔ v ∈ instVals pub) ∧
        pyJoin ", " l = some rec.institutions) ∧
      (∃ avals : List JVal,
        List.Forall₂ (fun a v => authorVal a = some v) pub.authorships avals ∧
        pyJoin ", " avals = some rec.authors)) pubs recs := by
  have hm := query_ok_spec _ _ _ _ _ h
  refine List.Forall₂.imp ?_ (mapMo_forall2 _ _ _ hm)
  intro pub rec hp
  obtain ⟨-, -, -, -, ⟨avals, ha1, ha2⟩, hinst⟩ := projectPub_spec _ _ _ hp
  exact ⟨⟨dedupList (instVals pub), nodup_dedupList _,
    fun v => mem_dedupList _ v, hinst⟩,
    ⟨avals, mapMo_forall2 _ _ _ ha1, ha2⟩⟩

/-- Witness for C9: two authors sharing the Aalborg University
affiliation produce the name once in institutions and both author names
in order. -/
theorem institutions_dedup_authors_in_order_witness :
    List.Forall₂ (fun pub rec =>
      (∃ l : List JVal, l.Nodup ∧ (∀ v, v ∈ l ↔ v ∈ instVals pub) ∧
        pyJoin ", " l = some rec.institutions) ∧
      (∃ avals : List JVal,
        List.Forall₂ (fun a v => authorVal a = some v) pub.authorships avals ∧
        pyJoin ", " avals = some rec.authors))
      [workTwoAalborg]
      [PubRecord.mk (JVal.jstr "N/A") (JVal.jstr "Unknown Title") "Alice, Bob"
        "Funder A" (JVal.jstr "Unknown") "Aalborg University"] :=
  institutions_dedup_authors_in_order "G1" (JVal.jstr "https://openalex.org/F1")
    "Funder A" [workTwoAalborg] _ (by rfl)

/-- Counterexample for C10: a present-but-null author display_name does
not reach any record; str.join raises on None, the exception is caught,
and the whole call returns no records at all. -/
theorem null_author_name_yields_no_record :
    query_openalex "G1" (JVal.jstr "https://openalex.org/F1") "Funder A"
      (HttpResult.ok 200 (some [workNullAuthorName])) =
      Except.ok ([], [processErrMsg]) := by rfl

/-- Claim C10, amended: for doi, title and publication_year a present-but-null
key flows into the record as null (the sentinels stand only for absent
keys); a present-but-null author display_name instead aborts the
projection of the whole batch. -/
theorem null_leaf_values_preserved (grant_id : String) (funder_id : JVal)
    (funder_name : String) (pubs : List Work) (recs : List PubRecord)
    (h : query_openalex grant_id funder_id funder_name
      (HttpResult.ok 200 (some pubs)) = Except.ok (recs, [])) :
    List.Forall₂ (fun pub rec =>
      (pub.doi = some JVal.jnull → rec.doi = JVal.jnull) ∧
      (pub.title = some JVal.jnull → rec.title = JVal.jnull) ∧
      (pub.publication_year = some JVal.jnull → rec.publication_year = JVal.jnull))
      pubs recs := by
  have hm := query_ok_spec _ _ _ _ _ h
  refine List.Forall₂.imp ?_ (mapMo_forall2 _ _ _ hm)
  intro pub rec hp
  obtain ⟨hdoi, htitle, hyear, -, -, -⟩ := projectPub_spec _ _ _ hp
  refine ⟨fun h0 => ?_, fun h0 => ?_, fun h0 => ?_⟩
  · rw [hdoi, h0]; rfl
  · rw [htitle, h0]; rfl
  · rw [hyear, h0]; rfl

/-- Witness for C10 amended: null doi, title and publication_year carried
into the record unchanged. -/
theorem null_leaf_values_preserved_witness :
    List.Forall₂ (fun pub rec =>
      (pub.doi = some JVal.jnull → rec.doi = JVal.jnull) ∧
      (pub.title = some JVal.jnull → rec.title = JVal.jnull) ∧
      (pub.publication_year = some JVal.jnull → rec.publication_year = JVal.jnull))
      [workNullLeaves]
      [PubRecord.mk JVal.jnull JVal.jnull "" "Funder A" JVal.jnull ""] :=
  null_leaf_values_preserved "G1" (JVal.jstr "https://openalex.org/F1") "Funder A"
    [workNullLeaves] _ (by rfl)
